import Mathlib

/-!
# Authentication and role-authorization service

A shallow embedding of the backend of the service: the credential validators
of `lib/utils.js`, the middleware of `middleware/auth.middleware.js`, the
handlers of `controllers/auth.controller.js` and the admin routes of
`routes/user.route.js`, followed by the properties proved about them.

JavaScript strings are sequences of UTF-16 code units; they are embedded as
lists of natural numbers, one per code unit, so that `.length` is the length of
the list and a regular expression without the `u` flag reads one code unit at
a time.
-/

namespace AuthService

/-! ## JavaScript strings -/

/-- A JavaScript string: its UTF-16 code units, in order. -/
abbrev JSString := List Nat

/-- The UTF-16 code units of one Unicode scalar value: itself in the basic
plane, a surrogate pair above it. -/
def utf16 (c : Char) : List Nat :=
  if c.toNat < 0x10000 then [c.toNat]
  else [0xD800 + (c.toNat - 0x10000) / 0x400, 0xDC00 + (c.toNat - 0x10000) % 0x400]

/-- The JavaScript string written as the literal `s`. -/
def js (s : String) : JSString :=
  (s.toList.map utf16).flatten

/-- JavaScript truthiness of a value that is `undefined` or a string: only a
non-empty string is truthy. -/
def truthy : Option JSString → Bool
  | none => false
  | some s => !s.isEmpty

/-- The method `s.startsWith(p)`. -/
def startsWith (s p : JSString) : Bool :=
  p.isPrefixOf s

/-- The method `s.split(sep)` for a separator `sep` of one code unit: the pieces of `s`
between the separators, empty pieces included. -/
def split (sep : Nat) : JSString → List JSString
  | [] => [[]]
  | c :: t =>
    if c = sep then [] :: split sep t
    else
      match split sep t with
      | [] => [[c]]
      | p :: ps => (c :: p) :: ps

/-! ## Regular expressions

The three regular expressions of `lib/utils.js` are sequences of character
classes, each taken once or one-or-more times, between optional `^` and `$`
anchors. `RegExp.prototype.test` is a backtracking search: it tries each
start position from the left (only position 0 under `^`) and, at a `+`, takes
as many code units as it can before giving some back. -/

/-- One item of a pattern: a character class, once or with `+`. -/
inductive Atom where
  | one (cls : Nat → Bool)
  | plus (cls : Nat → Bool)

/-- A pattern: `^`?, a sequence of atoms, `$`?. -/
structure Regex where
  anchorStart : Bool
  atoms : List Atom
  anchorEnd : Bool

/-- Whether the atoms match a prefix of the input (all of it when the pattern
ends with `$`), starting at its first code unit. -/
def matchHere (anchorEnd : Bool) : List Atom → List Nat → Bool
  | [], s => !anchorEnd || s.isEmpty
  | Atom.one _ :: _, [] => false
  | Atom.one cls :: rest, c :: t => cls c && matchHere anchorEnd rest t
  | Atom.plus _ :: _, [] => false
  | Atom.plus cls :: rest, c :: t =>
    cls c && (matchHere anchorEnd (Atom.plus cls :: rest) t || matchHere anchorEnd rest t)

/-- Whether the atoms match at some start position of the input. -/
def matchAnywhere (anchorEnd : Bool) (atoms : List Atom) : List Nat → Bool
  | [] => matchHere anchorEnd atoms []
  | c :: t => matchHere anchorEnd atoms (c :: t) || matchAnywhere anchorEnd atoms t

/-- The method `re.test(s)`. -/
def Regex.test (re : Regex) (s : JSString) : Bool :=
  if re.anchorStart then matchHere re.anchorEnd re.atoms s
  else matchAnywhere re.anchorEnd re.atoms s

/-- The class `\d` (without the `u` flag): the decimal digits `0`-`9`. -/
def isDigit (c : Nat) : Bool :=
  decide (48 ≤ c) && decide (c ≤ 57)

/-- The class `\s`: the white space and line terminator code units of
ECMAScript (tab, LF, VT, FF, CR, space, NBSP, U+1680, U+2000-U+200A, U+2028,
U+2029, U+202F, U+205F, U+3000, U+FEFF). -/
def isWhitespace (c : Nat) : Bool :=
  decide (c ∈ [9, 10, 11, 12, 13, 32, 0xA0, 0x1680, 0x2028, 0x2029, 0x202F, 0x205F, 0x3000, 0xFEFF])
    || (decide (0x2000 ≤ c) && decide (c ≤ 0x200A))

/-- The characters between the brackets of the class
`[!@#$%^&*(),.?":{}|<>]`. -/
def specialChars : JSString :=
  js "!@#$%^&*(),.?\":\x7b\x7d|<>"

/-- The class `[!@#$%^&*(),.?":{}|<>]`. -/
def isSpecial (c : Nat) : Bool :=
  decide (c ∈ specialChars)

/-- The class `[^\s@]`: neither white space nor `@` (code unit 64). -/
def notSpaceOrAt (c : Nat) : Bool :=
  !(isWhitespace c || c == 64)

/-! ## lib/utils.js: the credential validators -/

/-- The pattern `/^[^\s@]+@[^\s@]+\.[^\s@]+$/`. -/
def emailRegex : Regex :=
  { anchorStart := true
    atoms := [Atom.plus notSpaceOrAt, Atom.one (fun c => c == 64), Atom.plus notSpaceOrAt,
              Atom.one (fun c => c == 46), Atom.plus notSpaceOrAt]
    anchorEnd := true }

/-- The function `isValidEmail(email)` of `lib/utils.js`. -/
def isValidEmail (email : JSString) : Bool :=
  emailRegex.test email

/-- The function `isStrongPassword(password)` of `lib/utils.js`. -/
def isStrongPassword (password : JSString) : Bool :=
  if password.length < 8 then false
  else
    let hasNumber := (Regex.mk false [Atom.one isDigit] false).test password
    if !hasNumber then false
    else
      let hasSpecial := (Regex.mk false [Atom.one isSpecial] false).test password
      if !hasSpecial then false
      else true

/-! ## Data model -/

/-- A thrown JavaScript `Error`: its `name` and `message`. -/
structure JSError where
  name : JSString
  message : JSString

/-- Modelled from the spec: the identity record of `models/user.model.js`
(absent from the sources), with the fields the handlers read and write. A
document loaded with `.select('-password')` has no `password`; `profilePic` is
the optional avatar reference. -/
structure User where
  _id : JSString
  username : JSString
  email : JSString
  password : Option JSString
  role : JSString
  profilePic : Option JSString

/-- A JSON value, as sent by `res.json`. -/
inductive Json where
  | null
  | bool (b : Bool)
  | str (s : JSString)
  | arr (items : List Json)
  | obj (fields : List (JSString × Json))

mutual
/-- Whether some object inside the value, at any depth, has the key `k`. -/
def Json.hasKey (k : JSString) : Json → Bool
  | Json.null => false
  | Json.bool _ => false
  | Json.str _ => false
  | Json.arr items => Json.hasKeyItems k items
  | Json.obj fields => Json.hasKeyFields k fields
/-- The function `Json.hasKey` over the items of an array. -/
def Json.hasKeyItems (k : JSString) : List Json → Bool
  | [] => false
  | j :: rest => Json.hasKey k j || Json.hasKeyItems k rest
/-- The function `Json.hasKey` over the fields of an object. -/
def Json.hasKeyFields (k : JSString) : List (JSString × Json) → Bool
  | [] => false
  | (key, j) :: rest => decide (key = k) || Json.hasKey k j || Json.hasKeyFields k rest
end

/-- The value of the field `k` of an object. -/
def Json.field (k : JSString) : Json → Option Json
  | Json.obj fields => (fields.find? (fun kv => decide (kv.1 = k))).map (fun kv => kv.2)
  | _ => none

/-- Whether the value has a `password` or a `passwordHash` field anywhere. -/
def Json.exposesPassword (j : Json) : Bool :=
  j.hasKey (js "password") || j.hasKey (js "passwordHash")

/-- An optional field of an object literal: absent when the value is
`undefined`. -/
def optField (k : JSString) : Option JSString → List (JSString × Json)
  | none => []
  | some v => [(k, Json.str v)]

/-- The JSON serialization of a user document: the fields it holds. -/
def User.toJSON (u : User) : Json :=
  Json.obj ([(js "_id", Json.str u._id), (js "username", Json.str u.username),
    (js "email", Json.str u.email)] ++ optField (js "password") u.password ++
    [(js "role", Json.str u.role)] ++ optField (js "profilePic") u.profilePic)

/-- The body `{ message }`. -/
def message (m : JSString) : Json :=
  Json.obj [(js "message", Json.str m)]

/-- A cookie set on the response by `res.cookie(name, value, options)`. -/
structure Cookie where
  name : JSString
  value : JSString
  maxAge : Nat
  httpOnly : Bool
  sameSite : Option JSString
  secure : Bool

/-- The response: status, JSON body and the cookies set. -/
structure Response where
  status : Nat
  body : Json
  cookies : List Cookie

/-- The fields of `req.body`: the four the handlers read, each `undefined` or
a string, and any other field the client sent. -/
structure Body where
  username : Option JSString
  email : Option JSString
  password : Option JSString
  role : Option JSString
  others : List (JSString × Json)

/-- The request: `req.headers.authorization`, `req.cookies.jwt`, `req.body`,
`req.params.id` and the identity `req.user` attached by the middleware. -/
structure Request where
  authorization : Option JSString
  jwtCookie : Option JSString
  body : Body
  idParam : JSString
  user : Option User

/-- The collaborators outside the repository, as parameters: `jwt.verify` with
the configured secret (the decoded `userId`, or the error thrown), `jwt.sign`
of `{ userId }` with one hour of validity, `bcrypt.hash` with the salt of
`bcrypt.genSalt(10)`, `bcrypt.compare`, the `_id` given to a `new User`, and
whether `NODE_ENV` is `development`. -/
structure Env where
  verify : JSString → Except JSError JSString
  sign : JSString → JSString
  hash : JSString → JSString
  compare : JSString → JSString → Bool
  newId : JSString
  development : Bool

/-! ## The record store

Modelled from the spec: the `User` model (mongoose, `models/user.model.js`) is
absent from the sources. The spec gives "a record store exposed as
find-by-unique-field, find-by-id, insert, update-by-id,
select-excluding-field"; a query returns the first record, in the order of
the collection, that satisfies it. -/

/-- Modelled from the spec: the state of the record store, the documents of the
collection in order, and the error every operation throws while the store is
unavailable. -/
structure Store where
  docs : List User
  fault : Option JSError

/-- Modelled from the spec: every store operation first reaches the store. -/
def Store.reach (st : Store) : Except JSError Unit :=
  match st.fault with
  | some e => Except.error e
  | none => Except.ok ()

/-- Modelled from the spec: `User.findOne(query)`, find-by-unique-field. -/
def Store.findOne (st : Store) (query : User → Bool) : Except JSError (Option User) := do
  st.reach
  pure (st.docs.find? query)

/-- Modelled from the spec: `User.findById(id)`. -/
def Store.findById (st : Store) (id : JSString) : Except JSError (Option User) :=
  st.findOne (fun u => decide (u._id = id))

/-- Modelled from the spec: `User.find()`. -/
def Store.find (st : Store) : Except JSError (List User) := do
  st.reach
  pure st.docs

/-- Modelled from the spec: `.select('-password')`, select-excluding-field. -/
def selectMinusPassword (u : User) : User :=
  { u with password := none }

/-- Modelled from the spec: `newUser.save()` of a new document, insert. -/
def Store.insert (st : Store) (u : User) : Except JSError Store := do
  st.reach
  pure { st with docs := st.docs ++ [u] }

/-- Replaces the first document with the given `_id` by its image under `f`. -/
def updateFirst (id : JSString) (f : User → User) : List User → List User
  | [] => []
  | u :: rest => if u._id = id then f u :: rest else u :: updateFirst id f rest

/-- Modelled from the spec: update-by-id, as done by
`User.findByIdAndUpdate(id, update, { new: true })` and by `user.save()` of a
loaded document: the updated document, if there is one with this id, and the
new state. -/
def Store.updateById (st : Store) (id : JSString) (f : User → User) :
    Except JSError (Option User × Store) := do
  st.reach
  pure ((st.docs.find? (fun u => decide (u._id = id))).map f,
    { st with docs := updateFirst id f st.docs })

/-- The value of `try { body } catch (error) { handler }`. -/
def tryCatch {α : Type} (body : Except JSError α) (handler : JSError → α) : α :=
  match body with
  | Except.ok a => a
  | Except.error e => handler e

/-- The string of a field that is truthy: `undefined` and the empty string are
falsy. -/
def nonEmpty? : Option JSString → Option JSString
  | some (c :: t) => some (c :: t)
  | _ => none

/-- The response object before the handler writes to it. -/
def Response.fresh : Response :=
  { status := 200, body := Json.null, cookies := [] }

/-- The call `res.cookie(...)`. -/
def Response.cookie (res : Response) (c : Cookie) : Response :=
  { res with cookies := res.cookies ++ [c] }

/-- The call `res.status(code).json(body)`. -/
def Response.statusJson (res : Response) (code : Nat) (body : Json) : Response :=
  { res with status := code, body := body }

/-- The function `generateToken(userId, res)` of `lib/utils.js`: signs the
token, sets the `jwt` cookie on the response, returns the token. -/
def generateToken (env : Env) (userId : JSString) (res : Response) : JSString × Response :=
  let token := env.sign userId
  (token, res.cookie
    { name := js "jwt", value := token, maxAge := 60 * 60 * 1000, httpOnly := true,
      sameSite := some (js "strict"), secure := !env.development })

/-! ## middleware/auth.middleware.js -/

/-- What a middleware does once it has run: it sends a response, which ends the
chain, or calls `next()`. -/
inductive Outcome where
  | respond (res : Response)
  | next

/-- A middleware: the request as it leaves it, and what it did. -/
abbrev Middleware := Request → Request × Outcome

/-- The token `protectRoute` extracts (lines 8-15): the second piece of a
header that starts with `Bearer `, else the `jwt` cookie when it is truthy,
else `undefined`. -/
def extractToken (req : Request) : Option JSString :=
  let authHeader := req.authorization
  if truthy authHeader && startsWith (authHeader.getD []) (js "Bearer ") then
    (split 32 (authHeader.getD []))[1]?
  else if truthy req.jwtCookie then req.jwtCookie
  else none

/-- The middleware `protectRoute` of `middleware/auth.middleware.js`. The inner
`try` holds the verification, the lookup and `next()`; nothing of the outer
`try` outside the inner one throws. -/
def protectRoute (env : Env) (st : Store) : Middleware := fun req =>
  tryCatch
    (let token := extractToken req
     match nonEmpty? token with
     | none =>
       Except.ok (req, Outcome.respond
         (Response.fresh.statusJson 401 (message (js "Not authorized, no token"))))
     | some token =>
       Except.ok (tryCatch
         ((env.verify token).bind fun decodedUserId =>
          ((st.findById decodedUserId).map (Option.map selectMinusPassword)).bind fun user =>
          match user with
          | none =>
            Except.ok (req, Outcome.respond
              (Response.fresh.statusJson 404 (message (js "User not found"))))
          | some user => Except.ok ({ req with user := some user }, Outcome.next))
         (fun error =>
          if error.name = js "TokenExpiredError" then
            (req, Outcome.respond (Response.fresh.statusJson 401 (message (js "Token expired"))))
          else
            (req, Outcome.respond
              (Response.fresh.statusJson 401 (message (js "Not authorized, token failed")))))))
    (fun _ =>
      (req, Outcome.respond (Response.fresh.statusJson 500 (message (js "Internal server error")))))

/-- The middleware `authorizeRoles(...roles)` of
`middleware/auth.middleware.js`. -/
def authorizeRoles (roles : List JSString) : Middleware := fun req =>
  match req.user with
  | none =>
    (req, Outcome.respond (Response.fresh.statusJson 401 (message (js "Not authorized"))))
  | some user =>
    if !roles.contains user.role then
      (req, Outcome.respond (Response.fresh.statusJson 403
        (message (js "Role (" ++ user.role ++ js ") is not authorized to access this resource"))))
    else (req, Outcome.next)

/-- A route `router.METHOD(path, ...middlewares, handler)`: the middlewares
run in order, the handler runs if each of them called `next()`. -/
def route (mws : List Middleware) (handler : Store → Request → Store × Response)
    (st : Store) (req : Request) : Store × Response :=
  match mws with
  | [] => handler st req
  | m :: rest =>
    match m req with
    | (_, Outcome.respond res) => (st, res)
    | (req1, Outcome.next) => route rest handler st req1

/-! ## controllers/auth.controller.js -/

/-- The generic body of a `catch` block. -/
def internalError : Response :=
  Response.fresh.statusJson 500 (message (js "Internal server error"))

/-- The message sent for a weak password. -/
def weakPasswordMessage : JSString :=
  js "Password must be at least 8 characters long and include at least one number and one special character"

/-- The call `bcrypt.compare(password, hash)`: it rejects when the hash is not
a string. -/
def bcryptCompare (env : Env) (password : JSString) : Option JSString → Except JSError Bool
  | some hash => Except.ok (env.compare password hash)
  | none => Except.error { name := js "Error", message := js "Illegal arguments: string, undefined" }

/-- The handler `signup` of `controllers/auth.controller.js`: the store after
the request and the response. -/
def signup (env : Env) (st : Store) (req : Request) : Store × Response :=
  tryCatch
    (match nonEmpty? req.body.username, nonEmpty? req.body.email, nonEmpty? req.body.password with
     | some username, some email, some password =>
       if !isValidEmail email then
         Except.ok (st, Response.fresh.statusJson 400
           (message (js "Please provide a valid email address")))
       else if !isStrongPassword password then
         Except.ok (st, Response.fresh.statusJson 400 (message weakPasswordMessage))
       else
         (st.findOne fun u => decide (u.email = email) || decide (u.username = username)).bind
           fun existingUser =>
         let duplicate : Option JSString :=
           match existingUser with
           | some existingUser =>
             if existingUser.email = email then some (js "Email already in use")
             else if existingUser.username = username then some (js "Username already taken")
             else none
           | none => none
         match duplicate with
         | some m => Except.ok (st, Response.fresh.statusJson 400 (message m))
         | none =>
           let hashedPassword := env.hash password
           let newUser : User :=
             { _id := env.newId, username := username, email := email,
               password := some hashedPassword, role := js "user", profilePic := none }
           (st.insert newUser).bind fun st1 =>
           let res := (generateToken env newUser._id Response.fresh).2
           Except.ok (st1, res.statusJson 201
             (Json.obj [(js "_id", Json.str newUser._id),
               (js "username", Json.str newUser.username),
               (js "email", Json.str newUser.email), (js "role", Json.str newUser.role)]))
     | _, _, _ =>
       Except.ok (st, Response.fresh.statusJson 400
         (message (js "Please fill all required fields"))))
    (fun _ => (st, internalError))

/-- The handler `login` of `controllers/auth.controller.js`. -/
def login (env : Env) (st : Store) (req : Request) : Store × Response :=
  tryCatch
    (match nonEmpty? req.body.email, nonEmpty? req.body.password with
     | some email, some password =>
       (st.findOne fun u => decide (u.email = email)).bind fun user =>
       match user with
       | none =>
         Except.ok (st, Response.fresh.statusJson 401 (message (js "Invalid credentials")))
       | some user =>
         (bcryptCompare env password user.password).bind fun isMatch =>
         if !isMatch then
           Except.ok (st, Response.fresh.statusJson 401 (message (js "Invalid credentials")))
         else
           let res := (generateToken env user._id Response.fresh).2
           Except.ok (st, res.statusJson 200
             (Json.obj ([(js "_id", Json.str user._id), (js "username", Json.str user.username),
               (js "email", Json.str user.email), (js "role", Json.str user.role)] ++
               optField (js "profilePic") user.profilePic)))
     | _, _ =>
       Except.ok (st, Response.fresh.statusJson 400
         (message (js "Please provide email and password"))))
    (fun _ => (st, internalError))

/-- The handler `logout` of `controllers/auth.controller.js`. -/
def logout (st : Store) (_req : Request) : Store × Response :=
  let res := Response.fresh.cookie
    { name := js "jwt", value := [], maxAge := 0, httpOnly := false, sameSite := none,
      secure := false }
  (st, res.statusJson 200 (message (js "Logged out successfully")))

/-- The handler `getProfile` of `controllers/auth.controller.js`: the JSON of
`req.user`, nothing when it is `undefined`. -/
def getProfile (st : Store) (req : Request) : Store × Response :=
  (st, Response.fresh.statusJson 200
    (match req.user with
     | some user => user.toJSON
     | none => Json.null))

/-- The object `updateData` of `updateProfile`. -/
structure UpdateData where
  email : Option JSString
  password : Option JSString

/-- The document after `updateData` is applied to it. -/
def UpdateData.apply (d : UpdateData) (u : User) : User :=
  { u with
    email := d.email.getD u.email
    password := match d.password with
      | some h => some h
      | none => u.password }

/-- The handler `updateProfile` of `controllers/auth.controller.js`. Reading
`req.user._id` throws when no identity is attached. -/
def updateProfile (env : Env) (st : Store) (req : Request) : Store × Response :=
  tryCatch
    (let email := nonEmpty? req.body.email
     let password := nonEmpty? req.body.password
     match req.user with
     | none => Except.error { name := js "TypeError", message := js "Cannot read properties of undefined" }
     | some me =>
       let userId := me._id
       if email.isNone && password.isNone then
         Except.ok (st, Response.fresh.statusJson 400 (message (js "Nothing to update")))
       else
         -- the block `if (email)`: a response, or the e-mail to write
         let emailBlock : Except JSError (Response ⊕ Option JSString) :=
           match email with
           | some email =>
             if !isValidEmail email then
               Except.ok (Sum.inl (Response.fresh.statusJson 400
                 (message (js "Please provide a valid email address"))))
             else
               (st.findOne fun u => decide (u.email = email)).bind fun existingUser =>
               match existingUser with
               | some existingUser =>
                 if existingUser._id ≠ userId then
                   Except.ok (Sum.inl (Response.fresh.statusJson 400
                     (message (js "Email already in use"))))
                 else Except.ok (Sum.inr (some email))
               | none => Except.ok (Sum.inr (some email))
           | none => Except.ok (Sum.inr none)
         emailBlock.bind fun e =>
         match e with
         | Sum.inl res => Except.ok (st, res)
         | Sum.inr newEmail =>
           -- the block `if (password)`: a response, or the hash to write
           let passwordBlock : Response ⊕ Option JSString :=
             match password with
             | some password =>
               if !isStrongPassword password then
                 Sum.inl (Response.fresh.statusJson 400 (message weakPasswordMessage))
               else Sum.inr (some (env.hash password))
             | none => Sum.inr none
           match passwordBlock with
           | Sum.inl res => Except.ok (st, res)
           | Sum.inr newPassword =>
             let updateData : UpdateData := { email := newEmail, password := newPassword }
             (st.updateById userId updateData.apply).bind fun r =>
             let updatedUser := r.1.map selectMinusPassword
             Except.ok (r.2, Response.fresh.statusJson 200
               (match updatedUser with
                | some u => u.toJSON
                | none => Json.null)))
    (fun _ => (st, internalError))

/-- The handler `validateToken` of `controllers/auth.controller.js`. -/
def validateToken (st : Store) (req : Request) : Store × Response :=
  match req.user with
  | none =>
    (st, Response.fresh.statusJson 401
      (Json.obj [(js "valid", Json.bool false),
        (js "message", Json.str (js "User not found or token invalid"))]))
  | some user =>
    (st, Response.fresh.statusJson 200
      (Json.obj [(js "valid", Json.bool true),
        (js "user", Json.obj ([(js "_id", Json.str user._id),
          (js "username", Json.str user.username), (js "email", Json.str user.email),
          (js "role", Json.str user.role)] ++ optField (js "profilePic") user.profilePic))]))

/-! ## routes/user.route.js and routes/auth.route.js -/

/-- The body of the gated demonstration endpoints: a message and the `id`,
`username` and `role` of the attached identity (reading them throws when no
identity is attached; the route has no `catch`, the error handler of
`index.js` answers 500). -/
def gatedHandler (text : JSString) (st : Store) (req : Request) : Store × Response :=
  match req.user with
  | none => (st, internalError)
  | some user =>
    (st, Response.fresh.statusJson 200
      (Json.obj [(js "message", Json.str text),
        (js "user", Json.obj [(js "id", Json.str user._id),
          (js "username", Json.str user.username), (js "role", Json.str user.role)])]))

/-- The route `GET /moderator`: `protectRoute`, then
`authorizeRoles("moderator", "admin")`, then the handler. -/
def moderatorRoute (env : Env) (st : Store) (req : Request) : Store × Response :=
  route [protectRoute env st, authorizeRoles [js "moderator", js "admin"]]
    (gatedHandler (js "This is a moderator endpoint, accessible by moderators and admins only"))
    st req

/-- The route `GET /admin`: `protectRoute`, then `authorizeRoles("admin")`,
then the handler. -/
def adminRoute (env : Env) (st : Store) (req : Request) : Store × Response :=
  route [protectRoute env st, authorizeRoles [js "admin"]]
    (gatedHandler (js "This is an admin endpoint, accessible by admins only")) st req

/-- The handler of `GET /` (all users, admin only). -/
def listUsers (st : Store) (_req : Request) : Store × Response :=
  tryCatch
    ((st.find.map (List.map selectMinusPassword)).bind fun users =>
     Except.ok (st, Response.fresh.statusJson 200 (Json.arr (users.map User.toJSON))))
    (fun _ => (st, internalError))

/-- The handler of `GET /:id` (one user, admin only). -/
def getUserById (st : Store) (req : Request) : Store × Response :=
  tryCatch
    (((st.findById req.idParam).map (Option.map selectMinusPassword)).bind fun user =>
     match user with
     | none => Except.ok (st, Response.fresh.statusJson 404 (message (js "User not found")))
     | some user => Except.ok (st, Response.fresh.statusJson 200 user.toJSON))
    (fun _ => (st, internalError))

/-- The handler of `PUT /:id/role` (role change, admin only). -/
def updateUserRole (st : Store) (req : Request) : Store × Response :=
  tryCatch
    (let invalidRole := Response.fresh.statusJson 400
       (message (js "Invalid role. Must be \x27user\x27, \x27moderator\x27, or \x27admin\x27"))
     match nonEmpty? req.body.role with
     | none => Except.ok (st, invalidRole)
     | some role =>
       if !([js "user", js "moderator", js "admin"].contains role) then Except.ok (st, invalidRole)
       else
         (st.findById req.idParam).bind fun user =>
         match user with
         | none => Except.ok (st, Response.fresh.statusJson 404 (message (js "User not found")))
         | some user =>
           let user : User := { user with role := role }
           (st.updateById user._id (fun _ => user)).bind fun r =>
           Except.ok (r.2, Response.fresh.statusJson 200
             (Json.obj [(js "message",
                 Json.str (js "User role updated to " ++ role ++ js " successfully")),
               (js "user", Json.obj [(js "id", Json.str user._id),
                 (js "username", Json.str user.username), (js "email", Json.str user.email),
                 (js "role", Json.str user.role)])])))
    (fun _ => (st, internalError))

/-- The routes `GET /profile` and `GET /validate` of `routes/auth.route.js`:
`protectRoute`, then the handler. -/
def protectedRoute (env : Env) (handler : Store → Request → Store × Response)
    (st : Store) (req : Request) : Store × Response :=
  route [protectRoute env st] handler st req

/-! ## Sample data -/

/-- A stored identity `alice` with role `user`. -/
def alice : User :=
  { _id := js "u1", username := js "alice", email := js "alice@x.com",
    password := some (js "hash-of-alice"), role := js "user", profilePic := none }

/-- A stored identity `root` with role `admin`. -/
def root : User :=
  { _id := js "u2", username := js "root", email := js "root@x.com",
    password := some (js "hash-of-root"), role := js "admin", profilePic := none }

/-- An available store holding `alice` and `root`. -/
def sampleStore : Store :=
  { docs := [alice, root], fault := none }

/-- A sample environment: a token is `tok-` followed by the user id and
verifies to that id, the token `old` has expired, any other token is invalid;
the hash of a password is `hash-of-` followed by it. -/
def sampleEnv : Env :=
  { verify := fun t =>
      if startsWith t (js "tok-") then Except.ok (t.drop 4)
      else if t = js "old" then
        Except.error { name := js "TokenExpiredError", message := js "jwt expired" }
      else Except.error { name := js "JsonWebTokenError", message := js "invalid token" }
    sign := fun id => js "tok-" ++ id
    hash := fun p => js "hash-of-" ++ p
    compare := fun p h => decide (h = js "hash-of-" ++ p)
    newId := js "u9"
    development := false }

/-- A request with nothing in it. -/
def emptyRequest : Request :=
  { authorization := none, jwtCookie := none,
    body := { username := none, email := none, password := none, role := none, others := [] },
    idParam := [], user := none }

/-- The sample store while it cannot be reached: every operation throws. -/
def unreachableStore : Store :=
  { docs := [alice, root]
    fault := some { name := js "MongoNetworkError", message := js "connection refused" } }

/-- A request that carries only the cookie `jwt`. -/
def cookieRequest (token : JSString) : Request :=
  { emptyRequest with jwtCookie := some token }

/-- A request that carries an `Authorization` header and the cookie `jwt`. -/
def headerAndCookieRequest (header token : JSString) : Request :=
  { emptyRequest with authorization := some header, jwtCookie := some token }

/-- A request whose body holds an e-mail and a password. -/
def loginRequest (email password : JSString) : Request :=
  { emptyRequest with
    body := { username := none, email := some email, password := some password, role := none,
              others := [] } }

/-- A signup request; the body may also name a role. -/
def signupRequest (username email password : JSString) (role : Option JSString) : Request :=
  { emptyRequest with
    body := { username := some username, email := some email, password := some password,
              role := role, others := [] } }

/-- An available store without any identity. -/
def emptyStore : Store :=
  { docs := [], fault := none }

/-- The shape `local@domain.tld` in the words of the spec: the string is
`local ++ "@" ++ domain ++ "." ++ tld` with the three parts non-empty and made
of code units that satisfy `ok`. -/
def EmailShape (ok : Nat → Bool) (s : JSString) : Prop :=
  ∃ l d t : JSString, s = l ++ js "@" ++ d ++ js "." ++ t ∧ l ≠ [] ∧ d ≠ [] ∧ t ≠ [] ∧
    (∀ c ∈ l, ok c = true) ∧ (∀ c ∈ d, ok c = true) ∧ (∀ c ∈ t, ok c = true)

/-! ## Properties of the validators -/

theorem js_at : js "@" = [64] := by decide

theorem js_dot : js "." = [46] := by decide

theorem matchAnywhere_one (cls : Nat → Bool) (s : List Nat) :
    matchAnywhere false [Atom.one cls] s = true ↔ ∃ c ∈ s, cls c = true := by
  induction s with
  | nil => simp [matchAnywhere, matchHere]
  | cons x t ih => simp [matchAnywhere, matchHere, ih]

theorem matchHere_plus (cls : Nat → Bool) (rest : List Atom) (s : List Nat) :
    matchHere true (Atom.plus cls :: rest) s = true ↔
      ∃ a b : List Nat, a ≠ [] ∧ s = a ++ b ∧ (∀ c ∈ a, cls c = true) ∧
        matchHere true rest b = true := by
  induction s with
  | nil =>
    simp only [matchHere, Bool.false_eq_true, false_iff]
    rintro ⟨a, b, hne, hs, -, -⟩
    cases a with
    | nil => exact hne rfl
    | cons y a => simp at hs
  | cons x t ih =>
    simp only [matchHere, Bool.and_eq_true, Bool.or_eq_true, ih]
    constructor
    · rintro ⟨hx, h | h⟩
      · obtain ⟨a, b, -, rfl, ha, hb⟩ := h
        refine ⟨x :: a, b, by simp, by simp, ?_, hb⟩
        intro c hc
        rcases List.mem_cons.mp hc with rfl | hc
        · exact hx
        · exact ha c hc
      · exact ⟨[x], t, by simp, by simp, by simpa using hx, h⟩
    · rintro ⟨a, b, hne, hs, ha, hb⟩
      cases a with
      | nil => exact absurd rfl hne
      | cons y a =>
        simp only [List.cons_append, List.cons.injEq] at hs
        obtain ⟨rfl, rfl⟩ := hs
        refine ⟨ha x (by simp), ?_⟩
        cases a with
        | nil => right; simpa using hb
        | cons z a =>
          left
          exact ⟨z :: a, b, by simp, rfl, fun c hc => ha c (List.mem_cons_of_mem _ hc), hb⟩

theorem matchHere_one (cls : Nat → Bool) (rest : List Atom) (s : List Nat) :
    matchHere true (Atom.one cls :: rest) s = true ↔
      ∃ c t, s = c :: t ∧ cls c = true ∧ matchHere true rest t = true := by
  cases s with
  | nil => simp [matchHere]
  | cons x t =>
    simp only [matchHere, Bool.and_eq_true]
    constructor
    · rintro ⟨h1, h2⟩
      exact ⟨x, t, rfl, h1, h2⟩
    · rintro ⟨c, t1, h, h1, h2⟩
      cases h
      exact ⟨h1, h2⟩

theorem matchHere_nil (s : List Nat) : matchHere true [] s = true ↔ s = [] := by
  cases s <;> simp [matchHere]

theorem emailRegex_matches_shape (s : JSString) :
    isValidEmail s = true ↔ EmailShape notSpaceOrAt s := by
  unfold isValidEmail Regex.test emailRegex EmailShape
  simp only [if_true, js_at, js_dot]
  constructor
  · intro h
    obtain ⟨l, r1, hl, rfl, hlc, h⟩ := (matchHere_plus _ _ _).mp h
    obtain ⟨c1, r2, rfl, hc1, h⟩ := (matchHere_one _ _ _).mp h
    obtain ⟨d, r3, hd, rfl, hdc, h⟩ := (matchHere_plus _ _ _).mp h
    obtain ⟨c2, r4, rfl, hc2, h⟩ := (matchHere_one _ _ _).mp h
    obtain ⟨t, r5, ht, rfl, htc, h⟩ := (matchHere_plus _ _ _).mp h
    have h5 := (matchHere_nil _).mp h
    subst h5
    simp only [beq_iff_eq] at hc1 hc2
    subst hc1 hc2
    exact ⟨l, d, t, by simp, hl, hd, ht, hlc, hdc, htc⟩
  · rintro ⟨l, d, t, rfl, hl, hd, ht, hlc, hdc, htc⟩
    refine (matchHere_plus _ _ _).mpr ⟨l, [64] ++ d ++ [46] ++ t, hl, by simp, hlc, ?_⟩
    refine (matchHere_one _ _ _).mpr ⟨64, d ++ [46] ++ t, by simp, by simp, ?_⟩
    refine (matchHere_plus _ _ _).mpr ⟨d, [46] ++ t, hd, by simp, hdc, ?_⟩
    refine (matchHere_one _ _ _).mpr ⟨46, t, by simp, by simp, ?_⟩
    exact (matchHere_plus _ _ _).mpr ⟨t, [], ht, by simp, htc, (matchHere_nil _).mpr rfl⟩

/-- C1: `isStrongPassword(p)` is true exactly when `p` has at least 8 code
units, one of them a decimal digit `0`-`9` and one of them among
`! @ # $ % ^ & * ( ) , . ? " : { } | < >`; no letter of either case is required;
`Abcdefg1!` is accepted, `Abcdefgh!`, `Abcdefg1` and every string shorter
than 8 are rejected. -/
theorem isStrongPassword_iff :
    (∀ p : JSString, isStrongPassword p = true ↔
      8 ≤ p.length ∧ (∃ c ∈ p, 48 ≤ c ∧ c ≤ 57) ∧ (∃ c ∈ p, c ∈ specialChars)) ∧
    specialChars =
      [33, 64, 35, 36, 37, 94, 38, 42, 40, 41, 44, 46, 63, 34, 58, 123, 125, 124, 60, 62] ∧
    isStrongPassword (js "Abcdefg1!") = true ∧
    isStrongPassword (js "1234567!") = true ∧
    isStrongPassword (js "Abcdefgh!") = false ∧
    isStrongPassword (js "Abcdefg1") = false ∧
    (∀ p : JSString, p.length < 8 → isStrongPassword p = false) := by
  refine ⟨?_, by decide, by decide, by decide, by decide, by decide, ?_⟩
  · intro p
    unfold isStrongPassword Regex.test
    simp only [Bool.false_eq_true, if_false]
    by_cases h8 : p.length < 8
    · simp only [h8, if_true, Bool.false_eq_true, false_iff]
      omega
    · by_cases hd : matchAnywhere false [Atom.one isDigit] p = true
      · by_cases hs : matchAnywhere false [Atom.one isSpecial] p = true
        · have hd1 := (matchAnywhere_one _ _).mp hd
          have hs1 := (matchAnywhere_one _ _).mp hs
          simp only [h8, hd, hs, if_false, Bool.not_true, Bool.false_eq_true, true_iff]
          refine ⟨by omega, ?_, ?_⟩
          · obtain ⟨c, hc, h⟩ := hd1
            exact ⟨c, hc, by simpa [isDigit] using h⟩
          · obtain ⟨c, hc, h⟩ := hs1
            exact ⟨c, hc, by simpa [isSpecial] using h⟩
        · have hs1 : matchAnywhere false [Atom.one isSpecial] p = false := by simpa using hs
          simp only [h8, hd, hs1, if_false, Bool.not_true, Bool.not_false, if_true,
            Bool.false_eq_true, false_iff]
          rintro ⟨-, -, c, hc, h⟩
          exact hs ((matchAnywhere_one _ _).mpr ⟨c, hc, by simpa [isSpecial] using h⟩)
      · have hd1 : matchAnywhere false [Atom.one isDigit] p = false := by simpa using hd
        simp only [h8, hd1, if_false, Bool.not_false, if_true, Bool.false_eq_true, false_iff]
        rintro ⟨-, ⟨c, hc, h⟩, -⟩
        exact hd ((matchAnywhere_one _ _).mpr ⟨c, hc, by simpa [isDigit] using h⟩)
  · intro p hp
    unfold isStrongPassword
    simp [hp]

/-- C2 as stated fails: `a@b@c.d` has the shape `local@domain.tld` with parts
`a`, `b@c` and `d`, non-empty and free of white space, and `isValidEmail`
rejects it. -/
theorem isValidEmail_rejects_at_in_domain :
    EmailShape (fun c => !isWhitespace c) (js "a@b@c.d") ∧
      isValidEmail (js "a@b@c.d") = false :=
  ⟨⟨js "a", js "b@c", js "d", by decide, by decide, by decide, by decide, by decide, by decide,
    by decide⟩, by decide⟩

/-- C2, amended: `isValidEmail(s)` is true exactly when
`s = local ++ "@" ++ domain ++ "." ++ tld` with the three parts non-empty and
free of white space and of `@`; `a@b.co` is accepted, `a@b`, `a.com` and the
empty string are rejected. -/
theorem isValidEmail_iff :
    (∀ s : JSString, isValidEmail s = true ↔
      EmailShape (fun c => !isWhitespace c && !(c == 64)) s) ∧
    isValidEmail (js "a@b.co") = true ∧ isValidEmail (js "a@b") = false ∧
    isValidEmail (js "a.com") = false ∧ isValidEmail (js "") = false := by
  refine ⟨fun s => ?_, by decide, by decide, by decide, by decide⟩
  have h : (fun c => !isWhitespace c && !(c == 64)) = notSpaceOrAt := by
    funext c
    simp [notSpaceOrAt]
  rw [h]
  exact emailRegex_matches_shape s

/-! ## Properties of the middleware -/

/-- C3: `authorizeRoles(roles)` is a pure gate. Without an attached identity it
answers 401 `Not authorized`; with an identity whose role is not among `roles`
it answers 403 naming that role; otherwise it sends nothing and calls `next()`.
So the downstream handler runs exactly when an identity is attached and its
role is allowed, and the request is the same afterwards in every case. On the
admin-only route an identity with role `user` gets 403 naming `user` and one
with role `admin` passes. -/
theorem authorizeRoles_gate (roles : List JSString) (req : Request) :
    (authorizeRoles roles req).1 = req ∧
    (req.user = none →
      (authorizeRoles roles req).2 = Outcome.respond
        { status := 401, body := message (js "Not authorized"), cookies := [] }) ∧
    (∀ u : User, req.user = some u → u.role ∉ roles →
      (authorizeRoles roles req).2 = Outcome.respond
        { status := 403
          body := message
            (js "Role (" ++ u.role ++ js ") is not authorized to access this resource")
          cookies := [] }) ∧
    (∀ u : User, req.user = some u → u.role ∈ roles →
      (authorizeRoles roles req).2 = Outcome.next) ∧
    ((authorizeRoles roles req).2 = Outcome.next ↔
      ∃ u : User, req.user = some u ∧ u.role ∈ roles) ∧
    (authorizeRoles [js "admin"] { emptyRequest with user := some alice }).2 =
      Outcome.respond
        { status := 403
          body := message (js "Role (user) is not authorized to access this resource")
          cookies := [] } ∧
    (authorizeRoles [js "admin"] { emptyRequest with user := some root }).2 = Outcome.next ∧
    (adminRoute sampleEnv sampleStore { emptyRequest with jwtCookie := some (js "tok-u1") }).2 =
      { status := 403
        body := message (js "Role (user) is not authorized to access this resource")
        cookies := [] } ∧
    (adminRoute sampleEnv sampleStore
      { emptyRequest with jwtCookie := some (js "tok-u2") }).2.status = 200 := by
  refine ⟨?_, ?_, ?_, ?_, ?_, rfl, rfl, rfl, rfl⟩
  · unfold authorizeRoles
    cases req.user with
    | none => rfl
    | some u =>
      dsimp only
      split <;> rfl
  · intro h
    simp [authorizeRoles, h, Response.fresh, Response.statusJson]
  · intro u h hr
    simp [authorizeRoles, h, hr, Response.fresh, Response.statusJson]
  · intro u h hr
    simp [authorizeRoles, h, hr]
  · unfold authorizeRoles
    cases hu : req.user with
    | none => simp
    | some u =>
      by_cases hr : u.role ∈ roles <;> simp [hr]

/-- C4: with the token verifier and the store as parameters, `protectRoute`
calls `next()` exactly when the extracted token verifies to some id and the
store returns an identity with that id, and it then attaches that identity
without its password. An expiry error gives 401 `Token expired`, any other
verification error 401 `Not authorized, token failed`, a verified token
without identity 404 `User not found`; in these three cases `next()` is not
called and the request is left without the identity. -/
theorem protectRoute_accepts (env : Env) (st : Store) (req : Request) :
    ((protectRoute env st req).2 = Outcome.next ↔
      ∃ (token id : JSString) (u : User), nonEmpty? (extractToken req) = some token ∧
        env.verify token = Except.ok id ∧ st.findById id = Except.ok (some u)) ∧
    (∀ (token id : JSString) (u : User), nonEmpty? (extractToken req) = some token →
      env.verify token = Except.ok id → st.findById id = Except.ok (some u) →
      protectRoute env st req =
        ({ req with user := some { u with password := none } }, Outcome.next)) ∧
    (∀ (token : JSString) (e : JSError), nonEmpty? (extractToken req) = some token →
      env.verify token = Except.error e → e.name = js "TokenExpiredError" →
      protectRoute env st req = (req, Outcome.respond
        { status := 401, body := message (js "Token expired"), cookies := [] })) ∧
    (∀ (token : JSString) (e : JSError), nonEmpty? (extractToken req) = some token →
      env.verify token = Except.error e → e.name ≠ js "TokenExpiredError" →
      protectRoute env st req = (req, Outcome.respond
        { status := 401, body := message (js "Not authorized, token failed"), cookies := [] })) ∧
    (∀ token id : JSString, nonEmpty? (extractToken req) = some token →
      env.verify token = Except.ok id → st.findById id = Except.ok none →
      protectRoute env st req = (req, Outcome.respond
        { status := 404, body := message (js "User not found"), cookies := [] })) := by
  refine ⟨?_, ?_, ?_, ?_, ?_⟩
  · cases ht : nonEmpty? (extractToken req) with
    | none => simp [protectRoute, ht, tryCatch]
    | some token =>
      cases hv : env.verify token with
      | error e =>
        by_cases hn : e.name = js "TokenExpiredError" <;>
          simp [protectRoute, ht, hv, tryCatch, Except.bind, hn]
      | ok id =>
        cases hf : st.findById id with
        | error e =>
          by_cases hn : e.name = js "TokenExpiredError" <;>
            simp [protectRoute, ht, hv, hf, tryCatch, Except.bind, Except.map, hn]
        | ok found =>
          cases found with
          | none => simp [protectRoute, ht, hv, hf, tryCatch, Except.bind, Except.map]
          | some u => simp [protectRoute, ht, hv, hf, tryCatch, Except.bind, Except.map]
  · intro token id u ht hv hf
    simp [protectRoute, ht, hv, hf, tryCatch, Except.bind, Except.map, selectMinusPassword]
  · intro token e ht hv hn
    simp [protectRoute, ht, hv, hn, tryCatch, Except.bind, Response.fresh, Response.statusJson]
  · intro token e ht hv hn
    simp [protectRoute, ht, hv, hn, tryCatch, Except.bind, Response.fresh, Response.statusJson]
  · intro token id ht hv hf
    simp [protectRoute, ht, hv, hf, tryCatch, Except.bind, Except.map, Response.fresh,
      Response.statusJson]

/-- C5: the code at a failing input. A header `Bearer ` with an empty token, or
with two spaces before the token, makes `protectRoute` answer 401
`Not authorized, no token` although the request carries a valid `jwt` cookie;
the same request without the header, or with a header that does not start
with `Bearer `, is accepted with the cookie. -/
theorem protectRoute_bearer_header_hides_cookie :
    extractToken (headerAndCookieRequest (js "Bearer ") (js "tok-u1")) = some [] ∧
    protectRoute sampleEnv sampleStore (headerAndCookieRequest (js "Bearer ") (js "tok-u1")) =
      (headerAndCookieRequest (js "Bearer ") (js "tok-u1"), Outcome.respond
        { status := 401, body := message (js "Not authorized, no token"), cookies := [] }) ∧
    protectRoute sampleEnv sampleStore
        (headerAndCookieRequest (js "Bearer  tok-u1") (js "tok-u1")) =
      (headerAndCookieRequest (js "Bearer  tok-u1") (js "tok-u1"), Outcome.respond
        { status := 401, body := message (js "Not authorized, no token"), cookies := [] }) ∧
    (protectRoute sampleEnv sampleStore (cookieRequest (js "tok-u1"))).2 = Outcome.next ∧
    (protectRoute sampleEnv sampleStore
      (headerAndCookieRequest (js "Basic abc") (js "tok-u1"))).2 = Outcome.next :=
  ⟨rfl, rfl, rfl, rfl, rfl⟩

/-- C6: the code at a failing input. When the token verifies and the lookup of
the identity throws, the inner `catch` of `protectRoute` answers 401 (with
`Not authorized, token failed`, or `Token expired` if the error bears that
name), never 500: so it does with the sample store out of reach. -/
theorem protectRoute_store_failure_is_401 :
    (∀ (env : Env) (st : Store) (req : Request) (token id : JSString) (e : JSError),
      nonEmpty? (extractToken req) = some token → env.verify token = Except.ok id →
      st.findById id = Except.error e →
      protectRoute env st req = (req, Outcome.respond
        { status := 401
          body := message (if e.name = js "TokenExpiredError" then js "Token expired"
            else js "Not authorized, token failed")
          cookies := [] })) ∧
    nonEmpty? (extractToken (cookieRequest (js "tok-u1"))) = some (js "tok-u1") ∧
    sampleEnv.verify (js "tok-u1") = Except.ok (js "u1") ∧
    protectRoute sampleEnv unreachableStore (cookieRequest (js "tok-u1")) =
      (cookieRequest (js "tok-u1"), Outcome.respond
        { status := 401, body := message (js "Not authorized, token failed"), cookies := [] }) := by
  refine ⟨?_, rfl, rfl, rfl⟩
  intro env st req token id e ht hv hf
  by_cases hn : e.name = js "TokenExpiredError" <;>
    simp [protectRoute, ht, hv, hf, hn, tryCatch, Except.bind, Except.map, Response.fresh,
      Response.statusJson]

/-! ## Properties of the handlers -/

/-- C7: for a non-empty e-mail and password, `login` answers the same 401
`Invalid credentials`, with no cookie, whether the store finds no identity
with the e-mail or finds one whose stored hash the password does not verify
against; it answers 200, and sets the `jwt` cookie with the signed token,
exactly when the store finds an identity with the e-mail and the password
verifies against its stored hash. -/
theorem login_generic_failure (env : Env) (st1 st2 : Store) (req1 req2 : Request)
    (email1 password1 email2 password2 : JSString)
    (he1 : nonEmpty? req1.body.email = some email1)
    (hp1 : nonEmpty? req1.body.password = some password1)
    (he2 : nonEmpty? req2.body.email = some email2)
    (hp2 : nonEmpty? req2.body.password = some password2) :
    (st1.findOne (fun u => decide (u.email = email1)) = Except.ok none →
      ∀ (u : User) (h : JSString),
        st2.findOne (fun u => decide (u.email = email2)) = Except.ok (some u) →
        u.password = some h → env.compare password2 h = false →
        (login env st1 req1).2 = (login env st2 req2).2 ∧
        (login env st1 req1).2 =
          { status := 401, body := message (js "Invalid credentials"), cookies := [] }) ∧
    ((login env st1 req1).2.status = 200 ↔
      ∃ (u : User) (h : JSString),
        st1.findOne (fun u => decide (u.email = email1)) = Except.ok (some u) ∧
        u.password = some h ∧ env.compare password1 h = true) ∧
    ((login env st1 req1).2.cookies ≠ [] ↔
      ∃ (u : User) (h : JSString),
        st1.findOne (fun u => decide (u.email = email1)) = Except.ok (some u) ∧
        u.password = some h ∧ env.compare password1 h = true) ∧
    (∀ (u : User) (h : JSString),
      st1.findOne (fun u => decide (u.email = email1)) = Except.ok (some u) →
      u.password = some h → env.compare password1 h = true →
      (login env st1 req1).2 =
        { status := 200
          body := Json.obj ([(js "_id", Json.str u._id), (js "username", Json.str u.username),
            (js "email", Json.str u.email), (js "role", Json.str u.role)] ++
            optField (js "profilePic") u.profilePic)
          cookies := [{ name := js "jwt", value := env.sign u._id, maxAge := 3600000,
                        httpOnly := true, sameSite := some (js "strict"),
                        secure := !env.development }] }) := by
  refine ⟨?_, ?_, ?_, ?_⟩
  · intro h1 u h h2 hpw hc
    simp [login, he1, hp1, he2, hp2, h1, h2, hpw, hc, tryCatch, Except.bind, bcryptCompare,
      Response.fresh, Response.statusJson]
  · cases hf : st1.findOne (fun u => decide (u.email = email1)) with
    | error e =>
      simp [login, he1, hp1, hf, tryCatch, Except.bind, internalError, Response.fresh,
        Response.statusJson]
    | ok found =>
      cases found with
      | none =>
        simp [login, he1, hp1, hf, tryCatch, Except.bind, Response.fresh, Response.statusJson]
      | some u =>
        cases hpw : u.password with
        | none =>
          simp [login, he1, hp1, hf, hpw, tryCatch, Except.bind, bcryptCompare, internalError,
            Response.fresh, Response.statusJson]
        | some h =>
          cases hc : env.compare password1 h <;>
            simp [login, he1, hp1, hf, hpw, hc, tryCatch, Except.bind, bcryptCompare,
              generateToken, Response.cookie, Response.fresh, Response.statusJson]
  · cases hf : st1.findOne (fun u => decide (u.email = email1)) with
    | error e =>
      simp [login, he1, hp1, hf, tryCatch, Except.bind, internalError, Response.fresh,
        Response.statusJson]
    | ok found =>
      cases found with
      | none =>
        simp [login, he1, hp1, hf, tryCatch, Except.bind, Response.fresh, Response.statusJson]
      | some u =>
        cases hpw : u.password with
        | none =>
          simp [login, he1, hp1, hf, hpw, tryCatch, Except.bind, bcryptCompare, internalError,
            Response.fresh, Response.statusJson]
        | some h =>
          cases hc : env.compare password1 h <;>
            simp [login, he1, hp1, hf, hpw, hc, tryCatch, Except.bind, bcryptCompare,
              generateToken, Response.cookie, Response.fresh, Response.statusJson]
  · intro u h hf hpw hc
    simp [login, he1, hp1, hf, hpw, hc, tryCatch, Except.bind, bcryptCompare, generateToken,
      Response.cookie, Response.fresh, Response.statusJson]

/-- C7 at a concrete input: in the sample store, a login for an unknown e-mail
and a login for `alice` with a wrong password get the same response, and a
login for `alice` with her password gets 200. -/
theorem login_generic_failure_witness :
    (login sampleEnv sampleStore (loginRequest (js "nobody@x.com") (js "Abcdef1!"))).2 =
      (login sampleEnv sampleStore (loginRequest (js "alice@x.com") (js "wrong"))).2 ∧
    (login sampleEnv sampleStore (loginRequest (js "alice@x.com") (js "alice"))).2.status = 200 :=
  ⟨((login_generic_failure sampleEnv sampleStore sampleStore
      (loginRequest (js "nobody@x.com") (js "Abcdef1!"))
      (loginRequest (js "alice@x.com") (js "wrong"))
      (js "nobody@x.com") (js "Abcdef1!") (js "alice@x.com") (js "wrong")
      rfl rfl rfl rfl).1 rfl alice (js "hash-of-alice") rfl rfl rfl).1,
   ((login_generic_failure sampleEnv sampleStore sampleStore
      (loginRequest (js "alice@x.com") (js "alice"))
      (loginRequest (js "alice@x.com") (js "alice"))
      (js "alice@x.com") (js "alice") (js "alice@x.com") (js "alice")
      rfl rfl rfl rfl).2.1).mpr ⟨alice, js "hash-of-alice", rfl, rfl, rfl⟩⟩

theorem signup_status_201 (env : Env) (st : Store) (req : Request)
    (h : (signup env st req).2.status = 201) :
    ∃ username email password : JSString,
      nonEmpty? req.body.username = some username ∧ nonEmpty? req.body.email = some email ∧
      nonEmpty? req.body.password = some password ∧
      signup env st req =
        ({ st with docs := st.docs ++
            [User.mk env.newId username email (some (env.hash password)) (js "user") none] },
         { status := 201
           body := Json.obj [(js "_id", Json.str env.newId), (js "username", Json.str username),
             (js "email", Json.str email), (js "role", Json.str (js "user"))]
           cookies := [{ name := js "jwt", value := env.sign env.newId, maxAge := 3600000,
                         httpOnly := true, sameSite := some (js "strict"),
                         secure := !env.development }] }) := by
  cases hu : nonEmpty? req.body.username with
  | none => simp [signup, hu, tryCatch, Response.fresh, Response.statusJson] at h
  | some username =>
    cases he : nonEmpty? req.body.email with
    | none => simp [signup, hu, he, tryCatch, Response.fresh, Response.statusJson] at h
    | some email =>
      cases hp : nonEmpty? req.body.password with
      | none => simp [signup, hu, he, hp, tryCatch, Response.fresh, Response.statusJson] at h
      | some password =>
        refine ⟨username, email, password, rfl, rfl, rfl, ?_⟩
        cases hv : isValidEmail email with
        | false => simp [signup, hu, he, hp, hv, tryCatch, Response.fresh, Response.statusJson] at h
        | true =>
          cases hs : isStrongPassword password with
          | false =>
            simp [signup, hu, he, hp, hv, hs, tryCatch, Response.fresh, Response.statusJson] at h
          | true =>
            cases hf : st.fault with
            | some e =>
              simp [signup, hu, he, hp, hv, hs, hf, tryCatch, Except.bind, Store.findOne,
                Store.reach, bind, internalError, Response.fresh, Response.statusJson] at h
            | none =>
              cases hd : st.docs.find?
                (fun u => decide (u.email = email) || decide (u.username = username)) with
              | none =>
                simp [signup, hu, he, hp, hv, hs, hf, hd, tryCatch, Except.bind, Store.findOne,
                  Store.insert, Store.reach, bind, pure, Except.pure, generateToken,
                  Response.cookie, Response.fresh, Response.statusJson]
              | some ex =>
                by_cases h1 : ex.email = email
                · simp [signup, hu, he, hp, hv, hs, hf, hd, h1, tryCatch, Except.bind,
                    Store.findOne, Store.reach, bind, pure, Except.pure, Response.fresh,
                    Response.statusJson] at h
                · by_cases h2 : ex.username = username
                  · simp [signup, hu, he, hp, hv, hs, hf, hd, h1, h2, tryCatch, Except.bind,
                      Store.findOne, Store.reach, bind, pure, Except.pure, Response.fresh,
                      Response.statusJson] at h
                  · have hq := List.find?_some hd
                    simp [h1, h2] at hq

theorem signup_found (env : Env) (st : Store) (req : Request)
    (username email password : JSString) (ex : User)
    (hu : nonEmpty? req.body.username = some username)
    (he : nonEmpty? req.body.email = some email)
    (hp : nonEmpty? req.body.password = some password)
    (hv : isValidEmail email = true) (hs : isStrongPassword password = true)
    (hf : st.fault = none)
    (hd : st.docs.find? (fun u => decide (u.email = email) || decide (u.username = username))
      = some ex) :
    signup env st req = (st,
      { status := 400
        body := message (if ex.email = email then js "Email already in use"
          else js "Username already taken")
        cookies := [] }) := by
  by_cases h1 : ex.email = email
  · simp [signup, hu, he, hp, hv, hs, hf, hd, h1, tryCatch, Except.bind, Store.findOne,
      Store.reach, bind, pure, Except.pure, Response.fresh, Response.statusJson]
  · by_cases h2 : ex.username = username
    · simp [signup, hu, he, hp, hv, hs, hf, hd, h1, h2, tryCatch, Except.bind,
        Store.findOne, Store.reach, bind, pure, Except.pure, Response.fresh,
        Response.statusJson]
    · have hq := List.find?_some hd
      simp [h1, h2] at hq

theorem find?_of_exists {α : Type} (p : α → Bool) (l : List α) (h : ∃ a ∈ l, p a = true) :
    ∃ b, l.find? p = some b ∧ b ∈ l ∧ p b = true := by
  cases hd : l.find? p with
  | none =>
    obtain ⟨a, ha, hpa⟩ := h
    have := List.find?_eq_none.mp hd a ha
    exact absurd hpa this
  | some b => exact ⟨b, rfl, List.mem_of_find?_eq_some hd, List.find?_some hd⟩

/-- C8: the role of a new identity is not client-settable. When `signup`
answers 201 the identity added to the store and the identity in the response
both have role `user`, and two requests with the same username, e-mail and
password get the same store and the same response whatever else their bodies
hold; a body that names the role `admin` creates an identity with role
`user`. -/
theorem signup_role_not_client_settable (env : Env) (st : Store) (req1 req2 : Request) :
    ((signup env st req1).2.status = 201 →
      (∃ u : User, (signup env st req1).1.docs = st.docs ++ [u] ∧ u.role = js "user") ∧
      (signup env st req1).2.body.field (js "role") = some (Json.str (js "user"))) ∧
    (req1.body.username = req2.body.username → req1.body.email = req2.body.email →
      req1.body.password = req2.body.password → signup env st req1 = signup env st req2) ∧
    (signup sampleEnv sampleStore
      (signupRequest (js "bob") (js "bob@x.com") (js "Abcdef1!") (some (js "admin")))).2.status
      = 201 ∧
    (signup sampleEnv sampleStore
      (signupRequest (js "bob") (js "bob@x.com") (js "Abcdef1!") (some (js "admin")))).1.docs =
      [alice, root, User.mk (js "u9") (js "bob") (js "bob@x.com") (some (js "hash-of-Abcdef1!"))
        (js "user") none] ∧
    (signup sampleEnv emptyStore
      (signupRequest (js "alice") (js "alice@x.com") (js "Abcdef1!") none)).2 =
      { status := 201
        body := Json.obj [(js "_id", Json.str (js "u9")), (js "username", Json.str (js "alice")),
          (js "email", Json.str (js "alice@x.com")), (js "role", Json.str (js "user"))]
        cookies := [{ name := js "jwt", value := js "tok-u9", maxAge := 3600000,
                      httpOnly := true, sameSite := some (js "strict"), secure := true }] } := by
  refine ⟨?_, ?_, by decide, rfl, rfl⟩
  · intro h
    obtain ⟨username, email, password, -, -, -, heq⟩ := signup_status_201 env st req1 h
    rw [heq]
    refine ⟨⟨_, rfl, rfl⟩, ?_⟩
    have k1 : js "_id" ≠ js "role" := by decide
    have k2 : js "username" ≠ js "role" := by decide
    have k3 : js "email" ≠ js "role" := by decide
    simp [Json.field, List.find?, k1, k2, k3]
  · intro h1 h2 h3
    simp only [signup, h1, h2, h3]

/-- C10 as stated fails: in the sample store `root` has the e-mail
`root@x.com`, yet a valid signup with that e-mail and the username `alice` is
answered `Username already taken`, because the store finds `alice` first. -/
theorem signup_email_clash_reported_as_username :
    (∃ u ∈ sampleStore.docs, u.email = js "root@x.com") ∧
    isValidEmail (js "root@x.com") = true ∧ isStrongPassword (js "Abcdefg1!") = true ∧
    (signup sampleEnv sampleStore
      (signupRequest (js "alice") (js "root@x.com") (js "Abcdefg1!") none)).2 =
      { status := 400, body := message (js "Username already taken"), cookies := [] } ∧
    js "Username already taken" ≠ js "Email already in use" :=
  ⟨⟨root, List.mem_cons_of_mem _ (List.mem_cons_self _ _), rfl⟩, by decide, by decide, rfl,
    by decide⟩

/-- C10, amended: for a signup with username, e-mail and password present, a
valid e-mail, a strong password and a reachable store, if some existing
identity has the same e-mail or the same username then `signup` answers 400,
leaves the store as it was and sets no cookie; the message is
`Email already in use` when the first such identity of the store has the
e-mail and `Username already taken` when it has only the username. So a
duplicate e-mail gives `Email already in use` when every identity with the
username also has the e-mail, a duplicate username gives
`Username already taken` when no identity has the e-mail, and the two
messages are distinct. -/
theorem signup_duplicate (env : Env) (st : Store) (req : Request)
    (username email password : JSString)
    (hu : nonEmpty? req.body.username = some username)
    (he : nonEmpty? req.body.email = some email)
    (hp : nonEmpty? req.body.password = some password)
    (hv : isValidEmail email = true) (hs : isStrongPassword password = true)
    (hf : st.fault = none) :
    ((∃ u ∈ st.docs, u.email = email ∨ u.username = username) →
      ∃ ex : User,
        st.docs.find? (fun u => decide (u.email = email) || decide (u.username = username))
          = some ex ∧
        signup env st req = (st,
          { status := 400
            body := message (if ex.email = email then js "Email already in use"
              else js "Username already taken")
            cookies := [] })) ∧
    ((∃ u ∈ st.docs, u.email = email) →
      (∀ u ∈ st.docs, u.username = username → u.email = email) →
      signup env st req = (st,
        { status := 400, body := message (js "Email already in use"), cookies := [] })) ∧
    ((∃ u ∈ st.docs, u.username = username) → (∀ u ∈ st.docs, u.email ≠ email) →
      signup env st req = (st,
        { status := 400, body := message (js "Username already taken"), cookies := [] })) ∧
    js "Email already in use" ≠ js "Username already taken" := by
  have key : (∃ u ∈ st.docs, u.email = email ∨ u.username = username) →
      ∃ ex : User, ex ∈ st.docs ∧ (ex.email = email ∨ ex.username = username) ∧
        st.docs.find? (fun u => decide (u.email = email) || decide (u.username = username))
          = some ex ∧
        signup env st req = (st,
          { status := 400
            body := message (if ex.email = email then js "Email already in use"
              else js "Username already taken")
            cookies := [] }) := by
    rintro ⟨u, hm, hq⟩
    obtain ⟨ex, hd, hmem, hpx⟩ := find?_of_exists
      (fun u => decide (u.email = email) || decide (u.username = username)) st.docs
      ⟨u, hm, by simpa using hq⟩
    exact ⟨ex, hmem, by simpa using hpx, hd,
      signup_found env st req username email password ex hu he hp hv hs hf hd⟩
  refine ⟨?_, ?_, ?_, by decide⟩
  · intro h
    obtain ⟨ex, -, -, hd, heq⟩ := key h
    exact ⟨ex, hd, heq⟩
  · rintro ⟨u, hm, hue⟩ hall
    obtain ⟨ex, hmem, hq, -, heq⟩ := key ⟨u, hm, Or.inl hue⟩
    have hex : ex.email = email := by
      rcases hq with h | h
      · exact h
      · exact hall ex hmem h
    rw [heq, if_pos hex]
  · rintro ⟨u, hm, huu⟩ hall
    obtain ⟨ex, hmem, -, -, heq⟩ := key ⟨u, hm, Or.inr huu⟩
    rw [heq, if_neg (hall ex hmem)]

/-- C10 at a concrete input: in the sample store a signup with the e-mail of
`alice` and a new username is answered `Email already in use`, and the store
is unchanged. -/
theorem signup_duplicate_witness :
    signup sampleEnv sampleStore
      (signupRequest (js "zed") (js "alice@x.com") (js "Abcdefg1!") none) =
      (sampleStore,
        { status := 400, body := message (js "Email already in use"), cookies := [] }) :=
  (signup_duplicate sampleEnv sampleStore
    (signupRequest (js "zed") (js "alice@x.com") (js "Abcdefg1!") none)
    (js "zed") (js "alice@x.com") (js "Abcdefg1!") rfl rfl rfl (by decide) (by decide) rfl).2.1
    ⟨alice, List.mem_cons_self _ _, rfl⟩
    (by decide)

/-! ## No response serializes a password -/

theorem kId : js "_id" = [95, 105, 100] := by decide

theorem kUsername : js "username" = [117, 115, 101, 114, 110, 97, 109, 101] := by decide

theorem kEmail : js "email" = [101, 109, 97, 105, 108] := by decide

theorem kRole : js "role" = [114, 111, 108, 101] := by decide

theorem kProfilePic : js "profilePic" = [112, 114, 111, 102, 105, 108, 101, 80, 105, 99] := by decide

theorem kMessage : js "message" = [109, 101, 115, 115, 97, 103, 101] := by decide

theorem kValid : js "valid" = [118, 97, 108, 105, 100] := by decide

theorem kUser : js "user" = [117, 115, 101, 114] := by decide

theorem kIdShort : js "id" = [105, 100] := by decide

theorem kPassword : js "password" = [112, 97, 115, 115, 119, 111, 114, 100] := by decide

theorem kPasswordHash : js "passwordHash" = [112, 97, 115, 115, 119, 111, 114, 100, 72, 97, 115, 104] := by decide

theorem message_clean (m : JSString) : (message m).exposesPassword = false := by
  simp [message, Json.exposesPassword, Json.hasKey, Json.hasKeyFields, kMessage, kPassword,
    kPasswordHash]

theorem internalError_clean : internalError.body.exposesPassword = false := by
  simp [internalError, Response.statusJson, message_clean]

theorem toJSON_clean (u : User) (h : u.password = none) : u.toJSON.exposesPassword = false := by
  cases hp : u.profilePic <;>
    simp [User.toJSON, h, hp, optField, Json.exposesPassword, Json.hasKey, Json.hasKeyFields,
      kId, kUsername, kEmail, kRole, kProfilePic, kPassword, kPasswordHash]

theorem publicFields_clean (u : User) :
    (Json.obj ([(js "_id", Json.str u._id), (js "username", Json.str u.username),
      (js "email", Json.str u.email), (js "role", Json.str u.role)] ++
      optField (js "profilePic") u.profilePic)).exposesPassword = false := by
  cases hp : u.profilePic <;>
    simp [optField, Json.exposesPassword, Json.hasKey, Json.hasKeyFields,
      kId, kUsername, kEmail, kRole, kProfilePic, kPassword, kPasswordHash]

theorem hasKeyItems_map_toJSON (k : JSString) (users : List User)
    (h : ∀ u ∈ users, u.toJSON.hasKey k = false) :
    Json.hasKeyItems k (users.map User.toJSON) = false := by
  induction users with
  | nil => simp [Json.hasKeyItems]
  | cons u rest ih =>
    simp only [List.map_cons, Json.hasKeyItems, Bool.or_eq_false_iff]
    exact ⟨h u (List.mem_cons_self _ _), ih fun v hv => h v (List.mem_cons_of_mem _ hv)⟩

theorem signup_clean (env : Env) (st : Store) (req : Request) :
    (signup env st req).2.body.exposesPassword = false := by
  by_cases h : (signup env st req).2.status = 201
  · obtain ⟨username, email, password, -, -, -, heq⟩ := signup_status_201 env st req h
    rw [heq]
    simp [Json.exposesPassword, Json.hasKey, Json.hasKeyFields, kId, kUsername, kEmail, kRole,
      kPassword, kPasswordHash]
  · cases hu : nonEmpty? req.body.username with
    | none => simp [signup, hu, tryCatch, Response.statusJson, message_clean]
    | some username =>
      cases he : nonEmpty? req.body.email with
      | none => simp [signup, hu, he, tryCatch, Response.statusJson, message_clean]
      | some email =>
        cases hp : nonEmpty? req.body.password with
        | none => simp [signup, hu, he, hp, tryCatch, Response.statusJson, message_clean]
        | some password =>
          cases hv : isValidEmail email with
          | false => simp [signup, hu, he, hp, hv, tryCatch, Response.statusJson, message_clean]
          | true =>
            cases hs : isStrongPassword password with
            | false =>
              simp [signup, hu, he, hp, hv, hs, tryCatch, Response.statusJson, message_clean]
            | true =>
              cases hf : st.fault with
              | some e =>
                simp [signup, hu, he, hp, hv, hs, hf, tryCatch, Except.bind, Store.findOne,
                  Store.reach, bind, internalError_clean]
              | none =>
                cases hd : st.docs.find?
                  (fun u => decide (u.email = email) || decide (u.username = username)) with
                | none =>
                  exfalso
                  apply h
                  simp [signup, hu, he, hp, hv, hs, hf, hd, tryCatch, Except.bind,
                    Store.findOne, Store.insert, Store.reach, bind, pure, Except.pure,
                    Response.statusJson]
                | some ex =>
                  rw [signup_found env st req username email password ex hu he hp hv hs hf hd]
                  exact message_clean _

theorem login_clean (env : Env) (st : Store) (req : Request) :
    (login env st req).2.body.exposesPassword = false := by
  cases he : nonEmpty? req.body.email with
  | none => simp [login, he, tryCatch, Response.statusJson, message_clean]
  | some email =>
    cases hp : nonEmpty? req.body.password with
    | none => simp [login, he, hp, tryCatch, Response.statusJson, message_clean]
    | some password =>
      cases hf : st.findOne (fun u => decide (u.email = email)) with
      | error e => simp [login, he, hp, hf, tryCatch, Except.bind, internalError_clean]
      | ok found =>
        cases found with
        | none =>
          simp [login, he, hp, hf, tryCatch, Except.bind, Response.statusJson, message_clean]
        | some u =>
          cases hc : bcryptCompare env password u.password with
          | error e => simp [login, he, hp, hf, hc, tryCatch, Except.bind, internalError_clean]
          | ok isMatch =>
            cases isMatch with
            | false =>
              simp [login, he, hp, hf, hc, tryCatch, Except.bind, Response.statusJson,
                message_clean]
            | true =>
              have := publicFields_clean u
              simpa [login, he, hp, hf, hc, tryCatch, Except.bind, Response.statusJson] using this

theorem null_clean : Json.null.exposesPassword = false := by
  simp [Json.exposesPassword, Json.hasKey]

theorem optionJSON_clean (found : Option User) :
    (match Option.map selectMinusPassword found with
      | some u => u.toJSON
      | none => Json.null).exposesPassword = false := by
  cases found with
  | none => exact null_clean
  | some u => exact toJSON_clean _ rfl

theorem updatedJSON_clean (f : User → User) (found : Option User) :
    (match Option.map (selectMinusPassword ∘ f) found with
      | some u => u.toJSON
      | none => Json.null).exposesPassword = false := by
  cases found with
  | none => exact null_clean
  | some u => exact toJSON_clean _ rfl

theorem updateProfile_clean (env : Env) (st : Store) (req : Request) :
    (updateProfile env st req).2.body.exposesPassword = false := by
  cases hu : req.user with
  | none => simp [updateProfile, hu, tryCatch, internalError_clean]
  | some me =>
    cases hE : nonEmpty? req.body.email with
    | none =>
      cases hP : nonEmpty? req.body.password with
      | none => simp [updateProfile, hu, hE, hP, tryCatch, Response.statusJson, message_clean]
      | some password =>
        cases hs : isStrongPassword password <;> cases hf : st.fault <;>
          simp [updateProfile, hu, hE, hP, hs, hf, tryCatch, Except.bind, Store.updateById,
            Store.reach, bind, pure, Except.pure, message_clean, internalError_clean,
            Response.statusJson, updatedJSON_clean]
    | some email =>
      cases hv : isValidEmail email with
      | false =>
        simp [updateProfile, hu, hE, hv, tryCatch, Except.bind, message_clean,
          Response.statusJson]
      | true =>
        cases hf : st.fault with
        | some e =>
          simp [updateProfile, hu, hE, hv, hf, tryCatch, Except.bind, Store.findOne,
            Store.reach, bind, internalError_clean]
        | none =>
          have tail : ∀ newEmail : Option JSString,
              (tryCatch
                (match (match nonEmpty? req.body.password with
                    | some password =>
                      if !isStrongPassword password then
                        (Sum.inl (Response.fresh.statusJson 400 (message weakPasswordMessage)) :
                          Response ⊕ Option JSString)
                      else Sum.inr (some (env.hash password))
                    | none => Sum.inr none) with
                  | Sum.inl res => Except.ok (st, res)
                  | Sum.inr newPassword =>
                    (st.updateById me._id
                      (UpdateData.mk newEmail newPassword).apply).bind fun r =>
                    Except.ok (r.2, Response.fresh.statusJson 200
                      (match r.1.map selectMinusPassword with
                        | some u => u.toJSON
                        | none => Json.null)))
                (fun _ => (st, internalError))).2.body.exposesPassword = false := by
            intro newEmail
            cases hP : nonEmpty? req.body.password with
            | none =>
              simp [hf, tryCatch, Except.bind, Store.updateById, Store.reach, bind, pure,
                Except.pure, Response.statusJson, updatedJSON_clean]
            | some password =>
              cases hs : isStrongPassword password <;>
                simp [hs, hf, tryCatch, Except.bind, Store.updateById, Store.reach, bind, pure,
                  Except.pure, message_clean, Response.statusJson, updatedJSON_clean]
          rcases hd : st.docs.find? (fun u => decide (u.email = email)) with _ | ex
          · have := tail (some email)
            simpa [updateProfile, hu, hE, hv, hf, hd, tryCatch, Except.bind, Store.findOne,
              Store.reach, bind, pure, Except.pure] using this
          · by_cases hid : ex._id = me._id
            · have := tail (some email)
              simpa [updateProfile, hu, hE, hv, hf, hd, hid, tryCatch, Except.bind,
                Store.findOne, Store.reach, bind, pure, Except.pure] using this
            · simp [updateProfile, hu, hE, hv, hf, hd, hid, tryCatch, Except.bind,
                Store.findOne, Store.reach, bind, pure, Except.pure, message_clean,
                Response.statusJson]

theorem validateToken_clean (st : Store) (req : Request) :
    (validateToken st req).2.body.exposesPassword = false := by
  cases hu : req.user with
  | none =>
    simp [validateToken, hu, Response.statusJson, Json.exposesPassword, Json.hasKey,
      Json.hasKeyFields, kValid, kMessage, kPassword, kPasswordHash]
  | some u =>
    cases hp : u.profilePic <;>
      simp [validateToken, hu, hp, optField, Response.statusJson, Json.exposesPassword,
        Json.hasKey, Json.hasKeyFields, kValid, kUser, kId, kUsername, kEmail, kRole,
        kProfilePic, kPassword, kPasswordHash]

theorem listUsers_clean (st : Store) (req : Request) :
    (listUsers st req).2.body.exposesPassword = false := by
  cases hf : st.fault with
  | some e =>
    simp [listUsers, hf, tryCatch, Except.bind, Except.map, Store.find, Store.reach, bind,
      internalError_clean]
  | none =>
    have h1 : ∀ k : JSString, (k = js "password" ∨ k = js "passwordHash") →
        Json.hasKeyItems k ((st.docs.map selectMinusPassword).map User.toJSON) = false := by
      intro k hk
      apply hasKeyItems_map_toJSON
      intro u hu
      obtain ⟨v, -, rfl⟩ := List.mem_map.mp hu
      have := toJSON_clean (selectMinusPassword v) rfl
      simp only [Json.exposesPassword, Bool.or_eq_false_iff] at this
      rcases hk with rfl | rfl
      · exact this.1
      · exact this.2
    have h2 := h1 (js "password") (Or.inl rfl)
    have h3 := h1 (js "passwordHash") (Or.inr rfl)
    rw [List.map_map] at h2 h3
    simp [listUsers, hf, tryCatch, Except.bind, Except.map, Store.find, Store.reach, bind,
      pure, Except.pure, Response.statusJson, Json.exposesPassword, Json.hasKey, h2, h3]

theorem getUserById_clean (st : Store) (req : Request) :
    (getUserById st req).2.body.exposesPassword = false := by
  cases hf : st.fault with
  | some e =>
    simp [getUserById, hf, tryCatch, Except.bind, Except.map, Store.findById, Store.findOne,
      Store.reach, bind, internalError_clean]
  | none =>
    rcases hd : st.docs.find? (fun u => decide (u._id = req.idParam)) with _ | u
    · simp [getUserById, hf, hd, tryCatch, Except.bind, Except.map, Store.findById,
        Store.findOne, Store.reach, bind, pure, Except.pure, Response.statusJson, message_clean]
    · have := toJSON_clean (selectMinusPassword u) rfl
      simpa [getUserById, hf, hd, tryCatch, Except.bind, Except.map, Store.findById,
        Store.findOne, Store.reach, bind, pure, Except.pure, Response.statusJson] using this

theorem updateUserRole_clean (st : Store) (req : Request) :
    (updateUserRole st req).2.body.exposesPassword = false := by
  rcases hr : nonEmpty? req.body.role with _ | role
  · simp [updateUserRole, hr, tryCatch, Response.statusJson, message_clean]
  · by_cases hc : ¬role = js "user" ∧ ¬role = js "moderator" ∧ ¬role = js "admin"
    · simp [updateUserRole, hr, hc, tryCatch, Response.statusJson, message_clean]
    · cases hf : st.fault with
      | some e =>
        simp [updateUserRole, hr, hc, hf, tryCatch, Except.bind, Store.findById, Store.findOne,
          Store.reach, bind, internalError_clean]
      | none =>
        rcases hd : st.docs.find? (fun u => decide (u._id = req.idParam)) with _ | u
        · simp [updateUserRole, hr, hc, hf, hd, tryCatch, Except.bind, Store.findById,
            Store.findOne, Store.reach, bind, pure, Except.pure, Response.statusJson,
            message_clean]
        · have hbody : (updateUserRole st req).2.body =
              Json.obj [(js "message",
                  Json.str (js "User role updated to " ++ role ++ js " successfully")),
                (js "user", Json.obj [(js "id", Json.str u._id),
                  (js "username", Json.str u.username), (js "email", Json.str u.email),
                  (js "role", Json.str role)])] := by
            simp [updateUserRole, hr, hc, hf, hd, tryCatch, Except.bind, Store.findById,
              Store.findOne, Store.updateById, Store.reach, bind, pure, Except.pure,
              Response.statusJson]
          rw [hbody]
          simp [Json.exposesPassword, Json.hasKey, Json.hasKeyFields,
            kMessage, kUser, kIdShort, kUsername, kEmail, kRole, kPassword, kPasswordHash]

theorem protectRoute_cases (env : Env) (st : Store) (req : Request) :
    (∃ (code : Nat) (m : JSString), protectRoute env st req =
        (req, Outcome.respond (Response.fresh.statusJson code (message m)))) ∨
      ∃ u : User, protectRoute env st req =
        ({ req with user := some (selectMinusPassword u) }, Outcome.next) := by
  cases ht : nonEmpty? (extractToken req) with
  | none =>
    left
    exact ⟨401, js "Not authorized, no token", by simp [protectRoute, ht, tryCatch]⟩
  | some token =>
    cases hv : env.verify token with
    | error e =>
      left
      by_cases hn : e.name = js "TokenExpiredError"
      · exact ⟨401, js "Token expired", by simp [protectRoute, ht, hv, tryCatch, Except.bind, hn]⟩
      · exact ⟨401, js "Not authorized, token failed",
          by simp [protectRoute, ht, hv, tryCatch, Except.bind, hn]⟩
    | ok id =>
      cases hf : st.findById id with
      | error e =>
        left
        by_cases hn : e.name = js "TokenExpiredError"
        · exact ⟨401, js "Token expired",
            by simp [protectRoute, ht, hv, hf, tryCatch, Except.bind, Except.map, hn]⟩
        · exact ⟨401, js "Not authorized, token failed",
            by simp [protectRoute, ht, hv, hf, tryCatch, Except.bind, Except.map, hn]⟩
      | ok found =>
        cases found with
        | none =>
          left
          exact ⟨404, js "User not found",
            by simp [protectRoute, ht, hv, hf, tryCatch, Except.bind, Except.map]⟩
        | some u =>
          right
          exact ⟨u, by simp [protectRoute, ht, hv, hf, tryCatch, Except.bind, Except.map]⟩

theorem getProfile_clean (st : Store) (req : Request)
    (h : ∀ u : User, req.user = some u → u.password = none) :
    (getProfile st req).2.body.exposesPassword = false := by
  cases hu : req.user with
  | none => simp [getProfile, hu, Response.statusJson, null_clean]
  | some u =>
    have := toJSON_clean u (h u hu)
    simpa [getProfile, hu, Response.statusJson] using this

theorem protectedRoute_clean (env : Env) (handler : Store → Request → Store × Response)
    (st : Store) (req : Request)
    (h : ∀ u : User, (handler st { req with user := some (selectMinusPassword u) }).2.body.exposesPassword
      = false) :
    (protectedRoute env handler st req).2.body.exposesPassword = false := by
  rcases protectRoute_cases env st req with ⟨code, m, heq⟩ | ⟨u, heq⟩
  · simp [protectedRoute, route, heq, Response.statusJson, message_clean]
  · simp [protectedRoute, route, heq, h u]

theorem adminGuarded_clean (env : Env) (roles : List JSString)
    (handler : Store → Request → Store × Response) (st : Store) (req : Request)
    (h : ∀ r : Request, (handler st r).2.body.exposesPassword = false) :
    (route [protectRoute env st, authorizeRoles roles] handler st req).2.body.exposesPassword
      = false := by
  rcases protectRoute_cases env st req with ⟨code, m, heq⟩ | ⟨u, heq⟩
  · simp [route, heq, Response.statusJson, message_clean]
  · by_cases hr : (selectMinusPassword u).role ∈ roles
    · simp [route, heq, authorizeRoles, hr, h]
    · simp [route, heq, authorizeRoles, hr, Response.statusJson, message_clean]

/-- C9: no handler serializes a password. For every request and store state
the JSON body answered by `signup`, `login`, `logout`, `updateProfile`,
`validateToken` and the admin handlers (list users, get user by id, update
role), success or error, has no `password` or `passwordHash` field at any
depth; so has the body of `getProfile` for a request that `protectRoute`
passed on, and so have the routes as wired: `protectRoute` before
`getProfile`, `validateToken` and `updateProfile`, `protectRoute` and
`authorizeRoles("admin")` before the admin handlers. The stored record of
`alice` does hold a password, and her profile is answered without it. -/
theorem responses_never_expose_password (env : Env) (st : Store) (req : Request) :
    (signup env st req).2.body.exposesPassword = false ∧
    (login env st req).2.body.exposesPassword = false ∧
    (logout st req).2.body.exposesPassword = false ∧
    (updateProfile env st req).2.body.exposesPassword = false ∧
    (validateToken st req).2.body.exposesPassword = false ∧
    (listUsers st req).2.body.exposesPassword = false ∧
    (getUserById st req).2.body.exposesPassword = false ∧
    (updateUserRole st req).2.body.exposesPassword = false ∧
    ((protectRoute env st req).2 = Outcome.next →
      (getProfile st (protectRoute env st req).1).2.body.exposesPassword = false) ∧
    (protectedRoute env getProfile st req).2.body.exposesPassword = false ∧
    (protectedRoute env validateToken st req).2.body.exposesPassword = false ∧
    (protectedRoute env (updateProfile env) st req).2.body.exposesPassword = false ∧
    (route [protectRoute env st, authorizeRoles [js "admin"]] listUsers st
      req).2.body.exposesPassword = false ∧
    (route [protectRoute env st, authorizeRoles [js "admin"]] getUserById st
      req).2.body.exposesPassword = false ∧
    (route [protectRoute env st, authorizeRoles [js "admin"]] updateUserRole st
      req).2.body.exposesPassword = false ∧
    alice.toJSON.exposesPassword = true ∧
    (protectedRoute sampleEnv getProfile sampleStore (cookieRequest (js "tok-u1"))).2 =
      { status := 200
        body := Json.obj [(js "_id", Json.str (js "u1")), (js "username", Json.str (js "alice")),
          (js "email", Json.str (js "alice@x.com")), (js "role", Json.str (js "user"))]
        cookies := [] } := by
  refine ⟨signup_clean env st req, login_clean env st req, ?_, updateProfile_clean env st req,
    validateToken_clean st req, listUsers_clean st req, getUserById_clean st req,
    updateUserRole_clean st req, ?_, ?_, ?_, ?_, ?_, ?_, ?_, by decide, rfl⟩
  · simp [logout, Response.statusJson, message_clean]
  · intro hnext
    rcases protectRoute_cases env st req with ⟨code, m, heq⟩ | ⟨u, heq⟩
    · rw [heq] at hnext
      cases hnext
    · rw [heq]
      apply getProfile_clean
      intro v hv
      cases hv
      rfl
  · apply protectedRoute_clean
    intro u
    apply getProfile_clean
    intro v hv
    cases hv
    rfl
  · exact protectedRoute_clean env validateToken st req fun u => validateToken_clean st _
  · exact protectedRoute_clean env (updateProfile env) st req
      fun u => updateProfile_clean env st _
  · exact adminGuarded_clean env _ listUsers st req fun r => listUsers_clean st r
  · exact adminGuarded_clean env _ getUserById st req fun r => getUserById_clean st r
  · exact adminGuarded_clean env _ updateUserRole st req fun r => updateUserRole_clean st r

end AuthService
